import Mathlib

/-!
Verification development for the students-and-mentors record-keeping model
(`src/students_and_mentors.py`). The Python classes `Student`, `Mentor`,
`Lecturer`, `Reviewer` are embedded as Lean structures; the Python dict
from course name to grade list is an insertion-ordered association list;
Python floats are modelled by exact rationals (all divisions here are of an
integer sum by a positive integer count, so the 0-comparisons and
order-comparisons the model makes agree with the exact values); the error
string sentinel returned by the rating operations becomes an
`Option String` result component (`none` models Python `None`, i.e.
success); construction failures (`TypeError`/`ValueError`) become an
`Except` result.
-/

namespace StudentsAndMentors

/-- A Python `dict` mapping course names to lists of integer grades,
modelled as an insertion-ordered association list. -/
abbrev GradeDict := List (String × List Int)

/-- Python `course in d` (key membership test on the dict). -/
def dictContains : GradeDict → String → Bool
  | [], _ => false
  | p :: d, k => p.1 == k || dictContains d k

/-- Python `d[k]` as a total function returning `Option`. -/
def dictGet : GradeDict → String → Option (List Int)
  | [], _ => none
  | p :: d, k => if p.1 == k then some p.2 else dictGet d k

/-- `dictGet` with default `[]` for an absent key. -/
def dictGetD (d : GradeDict) (k : String) : List Int :=
  (dictGet d k).getD []

/-- `d[k] += [g]` on a dict known to contain `k`: the entry under `k`
gets `g` appended, every other entry is untouched. -/
def updateEntry : GradeDict → String → Int → GradeDict
  | [], _, _ => []
  | p :: d, k, g =>
    if p.1 == k then (p.1, p.2 ++ [g]) :: updateEntry d k g
    else p :: updateEntry d k g

/-- The mutation performed by both rating operations:
`d[k] += [g]` when `k in d`, else `d[k] = [g]` (a Python dict keeps
insertion order, so the fresh key goes to the back). -/
def dictAppend (d : GradeDict) (k : String) (g : Int) : GradeDict :=
  if dictContains d k then updateEntry d k g
  else d ++ [(k, [g])]

/-- Predicate over whitespace characters, modelling what Python
`str.strip()` removes. -/
def pyIsSpace (c : Char) : Bool :=
  c.isWhitespace

/-- Python `str.strip()`: drop leading and trailing whitespace. -/
def pyStrip (s : String) : String :=
  String.mk (((s.toList.dropWhile pyIsSpace).reverse.dropWhile pyIsSpace).reverse)

/-- Uppercase one character, modelling Python `str.upper()` on the
alphabets this program uses (ASCII and Russian Cyrillic). -/
def upperChar (c : Char) : Char :=
  if 'a' ≤ c ∧ c ≤ 'z' then Char.ofNat (c.toNat - 32)
  else if 'а' ≤ c ∧ c ≤ 'я' then Char.ofNat (c.toNat - 32)
  else if c = 'ё' then 'Ё'
  else c

/-- Lowercase one character (ASCII and Russian Cyrillic). -/
def lowerChar (c : Char) : Char :=
  if 'A' ≤ c ∧ c ≤ 'Z' then Char.ofNat (c.toNat + 32)
  else if 'А' ≤ c ∧ c ≤ 'Я' then Char.ofNat (c.toNat + 32)
  else if c = 'Ё' then 'ё'
  else c

/-- A cased letter, for the word boundaries of Python `str.title()`. -/
def casedChar (c : Char) : Bool :=
  ('a' ≤ c ∧ c ≤ 'z') || ('A' ≤ c ∧ c ≤ 'Z') ||
  ('а' ≤ c ∧ c ≤ 'я') || ('А' ≤ c ∧ c ≤ 'Я') || c = 'ё' || c = 'Ё'

/-- Python `str.upper()`. -/
def pyUpper (s : String) : String :=
  String.mk (s.toList.map upperChar)

/-- Helper for `pyTitle`: the boolean records whether the previous
character was a cased letter. -/
def titleAux : Bool → List Char → List Char
  | _, [] => []
  | prev, c :: cs =>
    (if prev then lowerChar c else upperChar c) :: titleAux (casedChar c) cs

/-- Python `str.title()`: the first letter of every word is uppercased,
the rest lowercased. -/
def pyTitle (s : String) : String :=
  String.mk (titleAux false s.toList)

/-- A Python constructor argument: either a `str` or a value of some
other (non-textual) type, which only the `isinstance` checks look at. -/
inductive PyVal where
  | str (s : String)
  | nonStr
  deriving DecidableEq

/-- The two exception kinds raised by the constructors. -/
inductive InitError where
  | typeError
  | valueError
  deriving DecidableEq

/-- The two accepted gender codes `["М", "Ж"]`. -/
def genderCodes : List String := ["М", "Ж"]

/-- Python class `Student`. -/
structure Student where
  name : String
  surname : String
  gender : String
  finished_courses : List String
  courses_in_progress : List String
  grades : GradeDict
  deriving DecidableEq

/-- Python class `Mentor`. -/
structure Mentor where
  name : String
  surname : String
  courses_attached : List String
  deriving DecidableEq

/-- Python class `Lecturer(Mentor)`. -/
structure Lecturer extends Mentor where
  grades : GradeDict
  deriving DecidableEq

/-- Python class `Reviewer(Mentor)`. -/
structure Reviewer extends Mentor where
  deriving DecidableEq

/-- A runtime object, for the `isinstance` dispatch in the rating
operations and the comparison methods. -/
inductive Obj where
  | student (s : Student)
  | lecturer (l : Lecturer)
  | reviewer (r : Reviewer)
  | mentor (m : Mentor)
  deriving DecidableEq

/-- `isinstance(o, Student)`. -/
def Obj.isStudent : Obj → Bool
  | Obj.student _ => true
  | _ => false

/-- `isinstance(o, Lecturer)`. -/
def Obj.isLecturer : Obj → Bool
  | Obj.lecturer _ => true
  | _ => false

/-- The student record stored by a successful `Student.__init__` on
textual arguments: normalized fields, empty course lists, empty grades. -/
def mkStudent (n sn g : String) : Student :=
  { name := pyTitle (pyStrip n)
    surname := pyTitle (pyStrip sn)
    gender := pyUpper (pyStrip g)
    finished_courses := []
    courses_in_progress := []
    grades := [] }

/-- `Student.__init__`: type-checks `name`, `surname`, `gender` in that
order, validates the normalized gender code, and stores the normalized
fields with empty course lists and an empty grade dict. -/
def Student.init (name surname gender : PyVal) : Except InitError Student :=
  match name, surname, gender with
  | PyVal.nonStr, _, _ => Except.error InitError.typeError
  | PyVal.str _, PyVal.nonStr, _ => Except.error InitError.typeError
  | PyVal.str _, PyVal.str _, PyVal.nonStr => Except.error InitError.typeError
  | PyVal.str n, PyVal.str sn, PyVal.str g =>
    if genderCodes.contains (pyUpper (pyStrip g)) then Except.ok (mkStudent n sn g)
    else Except.error InitError.valueError

/-- `Mentor.__init__`: type-checks `name` and `surname`, stores them
normalized, with an empty attached-courses list. -/
def Mentor.init (name surname : PyVal) : Except InitError Mentor :=
  match name, surname with
  | PyVal.nonStr, _ => Except.error InitError.typeError
  | PyVal.str _, PyVal.nonStr => Except.error InitError.typeError
  | PyVal.str n, PyVal.str sn =>
    Except.ok
      { name := pyTitle (pyStrip n)
        surname := pyTitle (pyStrip sn)
        courses_attached := [] }

/-- `Lecturer.__init__`: the `Mentor` initialization plus an empty grade
dict. -/
def Lecturer.init (name surname : PyVal) : Except InitError Lecturer :=
  (Mentor.init name surname).map (fun m => { toMentor := m, grades := [] })

/-- `Reviewer.__init__`: exactly the `Mentor` initialization. -/
def Reviewer.init (name surname : PyVal) : Except InitError Reviewer :=
  (Mentor.init name surname).map (fun m => { toMentor := m })

/-- The error sentinel returned by `rate_lecture` and `rate_hw`. -/
def errWord : String := "Ошибка"

/-- `Student.rate_lecture(self, target_lecturer, course, grade)`.
The result triple is (`self` after the call, `target` after the call,
returned value), where `none` models Python `None` (success) and
`some errWord` the returned error sentinel. -/
def Student.rate_lecture (self : Student) (target : Obj) (course : String)
    (grade : Int) : Student × Obj × Option String :=
  match target with
  | Obj.lecturer l =>
    if self.courses_in_progress.contains course &&
        l.courses_attached.contains course &&
        decide (0 ≤ grade) && decide (grade ≤ 10) then
      (self, Obj.lecturer { l with grades := dictAppend l.grades course grade }, none)
    else
      (self, target, some errWord)
  | _ => (self, target, some errWord)

/-- `Reviewer.rate_hw(self, target_student, course, grade)`, with the
same result convention as `Student.rate_lecture`. -/
def Reviewer.rate_hw (self : Reviewer) (target : Obj) (course : String)
    (grade : Int) : Reviewer × Obj × Option String :=
  match target with
  | Obj.student st =>
    if self.courses_attached.contains course &&
        st.courses_in_progress.contains course &&
        decide (0 ≤ grade) && decide (grade ≤ 10) then
      (self, Obj.student { st with grades := dictAppend st.grades course grade }, none)
    else
      (self, target, some errWord)
  | _ => (self, target, some errWord)

/-- The guard of `Student.rate_lecture` as a boolean predicate: target is
a `Lecturer`, the course is in progress for the student and attached to
the lecturer, and the grade lies in `[0, 10]`. -/
def lectureOk (self : Student) (target : Obj) (course : String) (grade : Int) : Bool :=
  match target with
  | Obj.lecturer l =>
    self.courses_in_progress.contains course &&
    l.courses_attached.contains course &&
    decide (0 ≤ grade) && decide (grade ≤ 10)
  | _ => false

/-- The guard of `Reviewer.rate_hw` as a boolean predicate. -/
def hwOk (self : Reviewer) (target : Obj) (course : String) (grade : Int) : Bool :=
  match target with
  | Obj.student st =>
    self.courses_attached.contains course &&
    st.courses_in_progress.contains course &&
    decide (0 ≤ grade) && decide (grade ≤ 10)
  | _ => false

/-- `avg_grade(course_grades)`: flattens all grade lists of the dict and
returns their arithmetic mean, or `0.0` for an empty dict or one whose
lists are all empty. Python's float result is modelled exactly in `ℚ`. -/
def avg_grade (course_grades : GradeDict) : ℚ :=
  if course_grades.isEmpty then 0
  else
    let target_rating := course_grades.foldl (fun acc p => acc ++ p.2) ([] : List Int)
    if target_rating.isEmpty then 0
    else (target_rating.sum : ℚ) / (target_rating.length : ℚ)

/-- `avg_students_grade(students_list, course_name)`: mean of all grades
under `course_name` across the students, `0.0` when there are none. -/
def avg_students_grade (students_list : List Student) (course_name : String) : ℚ :=
  let target_rating := students_list.foldl
    (fun acc st =>
      if dictContains st.grades course_name then acc ++ dictGetD st.grades course_name
      else acc) ([] : List Int)
  if target_rating.isEmpty then 0
  else (target_rating.sum : ℚ) / (target_rating.length : ℚ)

/-- `avg_lecturers_grade(lecturers_list, course_name)`: mean of all
grades under `course_name` across the lecturers, `0.0` when none. -/
def avg_lecturers_grade (lecturers_list : List Lecturer) (course_name : String) : ℚ :=
  let target_rating := lecturers_list.foldl
    (fun acc lec =>
      if dictContains lec.grades course_name then acc ++ dictGetD lec.grades course_name
      else acc) ([] : List Int)
  if target_rating.isEmpty then 0
  else (target_rating.sum : ℚ) / (target_rating.length : ℚ)

/-- `Student.__eq__`: defined only against another `Student`
(`none` models `NotImplemented`), comparing average grades. -/
def Student.eqOp (self : Student) (other : Obj) : Option Bool :=
  match other with
  | Obj.student o => some (decide (avg_grade self.grades = avg_grade o.grades))
  | _ => none

/-- `Student.__ne__`. -/
def Student.neOp (self : Student) (other : Obj) : Option Bool :=
  match other with
  | Obj.student o => some (decide (avg_grade self.grades ≠ avg_grade o.grades))
  | _ => none

/-- `Student.__lt__`. -/
def Student.ltOp (self : Student) (other : Obj) : Option Bool :=
  match other with
  | Obj.student o => some (decide (avg_grade self.grades < avg_grade o.grades))
  | _ => none

/-- `Student.__le__`. -/
def Student.leOp (self : Student) (other : Obj) : Option Bool :=
  match other with
  | Obj.student o => some (decide (avg_grade self.grades ≤ avg_grade o.grades))
  | _ => none

/-- `Student.__gt__`. -/
def Student.gtOp (self : Student) (other : Obj) : Option Bool :=
  match other with
  | Obj.student o => some (decide (avg_grade o.grades < avg_grade self.grades))
  | _ => none

/-- `Student.__ge__`. -/
def Student.geOp (self : Student) (other : Obj) : Option Bool :=
  match other with
  | Obj.student o => some (decide (avg_grade o.grades ≤ avg_grade self.grades))
  | _ => none

/-- `Lecturer.__eq__`: defined only against another `Lecturer`. -/
def Lecturer.eqOp (self : Lecturer) (other : Obj) : Option Bool :=
  match other with
  | Obj.lecturer o => some (decide (avg_grade self.grades = avg_grade o.grades))
  | _ => none

/-- `Lecturer.__ne__`. -/
def Lecturer.neOp (self : Lecturer) (other : Obj) : Option Bool :=
  match other with
  | Obj.lecturer o => some (decide (avg_grade self.grades ≠ avg_grade o.grades))
  | _ => none

/-- `Lecturer.__lt__`. -/
def Lecturer.ltOp (self : Lecturer) (other : Obj) : Option Bool :=
  match other with
  | Obj.lecturer o => some (decide (avg_grade self.grades < avg_grade o.grades))
  | _ => none

/-- `Lecturer.__le__`. -/
def Lecturer.leOp (self : Lecturer) (other : Obj) : Option Bool :=
  match other with
  | Obj.lecturer o => some (decide (avg_grade self.grades ≤ avg_grade o.grades))
  | _ => none

/-- `Lecturer.__gt__`. -/
def Lecturer.gtOp (self : Lecturer) (other : Obj) : Option Bool :=
  match other with
  | Obj.lecturer o => some (decide (avg_grade o.grades < avg_grade self.grades))
  | _ => none

/-- `Lecturer.__ge__`. -/
def Lecturer.geOp (self : Lecturer) (other : Obj) : Option Bool :=
  match other with
  | Obj.lecturer o => some (decide (avg_grade o.grades ≤ avg_grade self.grades))
  | _ => none

/-- The concatenation of all grade lists of a dict, in key insertion
order (the collection `avg_grade` averages over). -/
def flatGrades (d : GradeDict) : List Int :=
  (d.map Prod.snd).flatten

/-- The mean of a list of grades, `0` when the list is empty (the shape
shared by the three aggregation functions). -/
def meanOfList (xs : List Int) : ℚ :=
  if xs.isEmpty then 0 else (xs.sum : ℚ) / (xs.length : ℚ)

/-- The list of grades recorded under one course across a list of grade
dicts, in list order. -/
def courseGrades (ds : List GradeDict) (c : String) : List Int :=
  ds.foldl (fun acc d => if dictContains d c then acc ++ dictGetD d c else acc) ([] : List Int)

theorem foldl_append_flatten (M : GradeDict) (acc : List Int) :
    M.foldl (fun a p => a ++ p.2) acc = acc ++ (M.map Prod.snd).flatten := by
  induction M generalizing acc with
  | nil => simp
  | cons p M ih => simp [ih]

theorem avg_grade_eq_meanOfList (M : GradeDict) :
    avg_grade M = meanOfList (flatGrades M) := by
  unfold avg_grade meanOfList flatGrades
  cases M with
  | nil => simp
  | cons p M =>
    simp only [List.isEmpty_cons, Bool.false_eq_true, if_false, foldl_append_flatten,
      List.nil_append]

theorem dictGet_eq_none (d : GradeDict) (k : String) (h : dictContains d k = false) :
    dictGet d k = none := by
  induction d with
  | nil => rfl
  | cons p d ih =>
    simp only [dictContains, Bool.or_eq_false_iff] at h
    simp [dictGet, h.1, ih h.2]

theorem dictGet_isSome_of_contains (d : GradeDict) (k : String)
    (h : dictContains d k = true) : (dictGet d k).isSome = true := by
  induction d with
  | nil => cases h
  | cons p d ih =>
    by_cases hp : p.1 = k
    · simp [dictGet, hp]
    · simp only [dictContains, Bool.or_eq_true] at h
      rcases h with h | h
      · exact absurd (by simpa using h) hp
      · simp [dictGet, hp, ih h]

theorem dictGet_updateEntry_self (d : GradeDict) (k : String) (g : Int)
    (h : dictContains d k = true) :
    dictGet (updateEntry d k g) k = (dictGet d k).map (fun v => v ++ [g]) := by
  induction d with
  | nil => simp [dictContains] at h
  | cons p d ih =>
    by_cases hp : p.1 = k
    · simp [updateEntry, dictGet, hp]
    · simp only [dictContains, Bool.or_eq_true] at h
      rcases h with h | h
      · exact absurd (by simpa using h) hp
      · simp [updateEntry, dictGet, hp, ih h]

theorem dictGet_updateEntry_ne (d : GradeDict) (k : String) (g : Int)
    (k' : String) (h : k' ≠ k) :
    dictGet (updateEntry d k g) k' = dictGet d k' := by
  induction d with
  | nil => rfl
  | cons p d ih =>
    by_cases hp : p.1 = k
    · simp [updateEntry, dictGet, hp, Ne.symm h, ih]
    · by_cases hq : p.1 = k'
      · simp [updateEntry, dictGet, hp, hq, h]
      · simp [updateEntry, dictGet, hp, hq, ih]

theorem dictGet_append_fresh (d : GradeDict) (k : String) (g : Int)
    (h : dictContains d k = false) :
    dictGet (d ++ [(k, [g])]) k = some [g] := by
  induction d with
  | nil => simp [dictGet]
  | cons p d ih =>
    simp only [dictContains, Bool.or_eq_false_iff] at h
    simp [dictGet, h.1, ih h.2]

theorem dictGet_dictAppend_self (d : GradeDict) (k : String) (g : Int) :
    dictGet (dictAppend d k g) k = some (dictGetD d k ++ [g]) := by
  unfold dictAppend
  cases hc : dictContains d k with
  | false =>
    simp only [Bool.false_eq_true, if_false]
    rw [dictGet_append_fresh d k g hc]
    unfold dictGetD
    rw [dictGet_eq_none d k hc]
    rfl
  | true =>
    simp only [if_true]
    rw [dictGet_updateEntry_self d k g hc]
    cases hv : dictGet d k with
    | none =>
      have hs := dictGet_isSome_of_contains d k hc
      rw [hv] at hs
      cases hs
    | some v => simp [dictGetD, hv]

theorem dictGet_append_single_ne (d : GradeDict) (k : String) (g : Int)
    (k' : String) (h : k' ≠ k) :
    dictGet (d ++ [(k, [g])]) k' = dictGet d k' := by
  induction d with
  | nil => simp [dictGet, Ne.symm h]
  | cons p d ih => by_cases hp : p.1 = k' <;> simp [dictGet, hp, ih]

theorem dictGet_dictAppend_ne (d : GradeDict) (k : String) (g : Int)
    (k' : String) (h : k' ≠ k) :
    dictGet (dictAppend d k g) k' = dictGet d k' := by
  unfold dictAppend
  split
  · exact dictGet_updateEntry_ne d k g k' h
  · exact dictGet_append_single_ne d k g k' h

theorem dictGetD_dictAppend_self (d : GradeDict) (k : String) (g : Int) :
    dictGetD (dictAppend d k g) k = dictGetD d k ++ [g] := by
  unfold dictGetD
  rw [dictGet_dictAppend_self]
  rfl

theorem dictGetD_dictAppend_ne (d : GradeDict) (k : String) (g : Int)
    (k' : String) (h : k' ≠ k) :
    dictGetD (dictAppend d k g) k' = dictGetD d k' := by
  unfold dictGetD
  rw [dictGet_dictAppend_ne d k g k' h]

/-- Every grade stored anywhere in the dict lies in `[0, 10]`. -/
def gradesInRange (d : GradeDict) : Prop :=
  ∀ p ∈ d, ∀ g ∈ p.2, 0 ≤ g ∧ g ≤ 10

theorem gradesInRange_nil : gradesInRange [] := by
  intro p hp
  cases hp

theorem gradesInRange_dictAppend (d : GradeDict) (k : String) (g : Int)
    (hd : gradesInRange d) (h0 : 0 ≤ g) (h1 : g ≤ 10) :
    gradesInRange (dictAppend d k g) := by
  unfold dictAppend
  split
  · clear * - hd h0 h1
    induction d with
    | nil => exact gradesInRange_nil
    | cons p d ih =>
      have hdtail : gradesInRange d := fun q hq => hd q (List.mem_cons_of_mem p hq)
      have hdhead := hd p (List.mem_cons_self p d)
      intro q hq
      by_cases hp : p.1 = k
      · simp only [updateEntry, hp, beq_self_eq_true, if_true] at hq
        rcases List.mem_cons.mp hq with rfl | hq
        · intro x hx
          rcases List.mem_append.mp hx with hx | hx
          · exact hdhead x hx
          · rw [List.mem_singleton.mp hx]; exact ⟨h0, h1⟩
        · exact ih hdtail q hq
      · have hpb : (p.1 == k) = false := by simp [hp]
        simp only [updateEntry, hpb, Bool.false_eq_true, if_false] at hq
        rcases List.mem_cons.mp hq with rfl | hq
        · exact hdhead
        · exact ih hdtail q hq
  · intro q hq
    rcases List.mem_append.mp hq with hq | hq
    · exact hd q hq
    · rw [List.mem_singleton.mp hq]
      intro x hx
      rw [List.mem_singleton.mp hx]
      exact ⟨h0, h1⟩

/-- Case analysis of one `rate_hw` call on a `Student` target: either the
guard held and exactly the course entry gained the (in-range) grade, or
nothing changed and the sentinel was returned. -/
theorem rate_hw_cases (r : Reviewer) (s : Student) (c : String) (g : Int)
    (s' : Student) (res : Option String)
    (h : Reviewer.rate_hw r (Obj.student s) c g = (r, Obj.student s', res)) :
    (s' = { s with grades := dictAppend s.grades c g } ∧ res = none ∧
      r.courses_attached.contains c = true ∧
      s.courses_in_progress.contains c = true ∧ 0 ≤ g ∧ g ≤ 10) ∨
    (s' = s ∧ res = some errWord) := by
  simp only [Reviewer.rate_hw] at h
  by_cases hc : (r.courses_attached.contains c && s.courses_in_progress.contains c &&
      decide (0 ≤ g) && decide (g ≤ 10)) = true
  · rw [if_pos hc] at h
    simp only [Prod.mk.injEq, Obj.student.injEq] at h
    simp only [Bool.and_eq_true, decide_eq_true_eq] at hc
    exact Or.inl ⟨h.2.1.symm, h.2.2.symm, hc.1.1.1, hc.1.1.2, hc.1.2, hc.2⟩
  · rw [if_neg hc] at h
    simp only [Prod.mk.injEq, Obj.student.injEq] at h
    exact Or.inr ⟨h.2.1.symm, h.2.2.symm⟩

/-- Case analysis of one `rate_lecture` call on a `Lecturer` target. -/
theorem rate_lecture_cases (st : Student) (l : Lecturer) (c : String) (g : Int)
    (l' : Lecturer) (res : Option String)
    (h : Student.rate_lecture st (Obj.lecturer l) c g = (st, Obj.lecturer l', res)) :
    (l' = { l with grades := dictAppend l.grades c g } ∧ res = none ∧
      st.courses_in_progress.contains c = true ∧
      l.courses_attached.contains c = true ∧ 0 ≤ g ∧ g ≤ 10) ∨
    (l' = l ∧ res = some errWord) := by
  simp only [Student.rate_lecture] at h
  by_cases hc : (st.courses_in_progress.contains c && l.courses_attached.contains c &&
      decide (0 ≤ g) && decide (g ≤ 10)) = true
  · rw [if_pos hc] at h
    simp only [Prod.mk.injEq, Obj.lecturer.injEq] at h
    simp only [Bool.and_eq_true, decide_eq_true_eq] at hc
    exact Or.inl ⟨h.2.1.symm, h.2.2.symm, hc.1.1.1, hc.1.1.2, hc.1.2, hc.2⟩
  · rw [if_neg hc] at h
    simp only [Prod.mk.injEq, Obj.lecturer.injEq] at h
    exact Or.inr ⟨h.2.1.symm, h.2.2.symm⟩

/-- The states a `Student` can be in: constructed by `Student.__init__`,
then mutated only by external appends to the course lists (which leave
`grades` alone) and by `rate_hw` calls from arbitrary reviewers. -/
inductive StudentReach : Student → Prop where
  | init (n sn g : PyVal) (s : Student) :
      Student.init n sn g = Except.ok s → StudentReach s
  | enroll (s s' : Student) : StudentReach s → s'.grades = s.grades → StudentReach s'
  | rated (r : Reviewer) (s s' : Student) (c : String) (g : Int) (res : Option String) :
      StudentReach s →
      Reviewer.rate_hw r (Obj.student s) c g = (r, Obj.student s', res) →
      StudentReach s'

/-- The states a `Lecturer` can be in: constructed by
`Lecturer.__init__`, then mutated only by external appends to
`courses_attached` and by `rate_lecture` calls from arbitrary students. -/
inductive LecturerReach : Lecturer → Prop where
  | init (n sn : PyVal) (l : Lecturer) :
      Lecturer.init n sn = Except.ok l → LecturerReach l
  | attach (l l' : Lecturer) : LecturerReach l → l'.grades = l.grades → LecturerReach l'
  | rated (s : Student) (l l' : Lecturer) (c : String) (g : Int) (res : Option String) :
      LecturerReach l →
      Student.rate_lecture s (Obj.lecturer l) c g = (s, Obj.lecturer l', res) →
      LecturerReach l'

theorem studentReach_gradesInRange (s : Student) (h : StudentReach s) :
    gradesInRange s.grades := by
  induction h with
  | init n sn g s h =>
    cases n with
    | nonStr => simp [Student.init] at h
    | str n =>
      cases sn with
      | nonStr => simp [Student.init] at h
      | str sn =>
        cases g with
        | nonStr => simp [Student.init] at h
        | str g =>
          simp only [Student.init] at h
          split at h
          · injection h with h
            rw [← h]
            exact gradesInRange_nil
          · cases h
  | enroll s s' hr hgr ih =>
    rw [hgr]
    exact ih
  | rated r s s' c g res hr hstep ih =>
    rcases rate_hw_cases r s c g s' res hstep with ⟨rfl, -, -, -, h0, h1⟩ | ⟨rfl, -⟩
    · exact gradesInRange_dictAppend s.grades c g ih h0 h1
    · exact ih

theorem lecturerReach_gradesInRange (l : Lecturer) (h : LecturerReach l) :
    gradesInRange l.grades := by
  induction h with
  | init n sn l h =>
    cases n with
    | nonStr => simp [Lecturer.init, Mentor.init, Except.map] at h
    | str n =>
      cases sn with
      | nonStr => simp [Lecturer.init, Mentor.init, Except.map] at h
      | str sn =>
        simp only [Lecturer.init, Mentor.init, Except.map] at h
        injection h with h
        rw [← h]
        exact gradesInRange_nil
  | attach l l' hr hgr ih =>
    rw [hgr]
    exact ih
  | rated s l l' c g res hr hstep ih =>
    rcases rate_lecture_cases s l c g l' res hstep with ⟨rfl, -, -, -, h0, h1⟩ | ⟨rfl, -⟩
    · exact gradesInRange_dictAppend l.grades c g ih h0 h1
    · exact ih

theorem rate_hw_prefix (r : Reviewer) (s : Student) (c : String) (g : Int)
    (s' : Student) (res : Option String)
    (h : Reviewer.rate_hw r (Obj.student s) c g = (r, Obj.student s', res)) :
    ∀ k, dictGetD s.grades k <+: dictGetD s'.grades k := by
  rcases rate_hw_cases r s c g s' res h with ⟨rfl, -, -, -, -, -⟩ | ⟨rfl, -⟩
  · intro k
    by_cases hk : k = c
    · subst hk
      show dictGetD s.grades k <+: dictGetD (dictAppend s.grades k g) k
      rw [dictGetD_dictAppend_self]
      exact ⟨[g], rfl⟩
    · show dictGetD s.grades k <+: dictGetD (dictAppend s.grades c g) k
      rw [dictGetD_dictAppend_ne s.grades c g k hk]
  · intro k
    exact List.prefix_refl _

theorem rate_lecture_prefix (st : Student) (l : Lecturer) (c : String) (g : Int)
    (l' : Lecturer) (res : Option String)
    (h : Student.rate_lecture st (Obj.lecturer l) c g = (st, Obj.lecturer l', res)) :
    ∀ k, dictGetD l.grades k <+: dictGetD l'.grades k := by
  rcases rate_lecture_cases st l c g l' res h with ⟨rfl, -, -, -, -, -⟩ | ⟨rfl, -⟩
  · intro k
    by_cases hk : k = c
    · subst hk
      show dictGetD l.grades k <+: dictGetD (dictAppend l.grades k g) k
      rw [dictGetD_dictAppend_self]
      exact ⟨[g], rfl⟩
    · show dictGetD l.grades k <+: dictGetD (dictAppend l.grades c g) k
      rw [dictGetD_dictAppend_ne l.grades c g k hk]
  · intro k
    exact List.prefix_refl _

theorem avg_students_grade_eq (ss : List Student) (c : String) :
    avg_students_grade ss c = meanOfList (courseGrades (ss.map Student.grades) c) := by
  unfold avg_students_grade meanOfList courseGrades
  rw [List.foldl_map]

theorem avg_lecturers_grade_eq (ls : List Lecturer) (c : String) :
    avg_lecturers_grade ls c = meanOfList (courseGrades (ls.map Lecturer.grades) c) := by
  unfold avg_lecturers_grade meanOfList courseGrades
  rw [List.foldl_map]

instance {ε α : Type} [DecidableEq ε] [DecidableEq α] : DecidableEq (Except ε α) :=
  fun a b =>
    match a, b with
    | Except.ok x, Except.ok y =>
      if h : x = y then Decidable.isTrue (by rw [h]) else Decidable.isFalse (by simp [h])
    | Except.error x, Except.error y =>
      if h : x = y then Decidable.isTrue (by rw [h]) else Decidable.isFalse (by simp [h])
    | Except.ok _, Except.error _ => Decidable.isFalse (by simp)
    | Except.error _, Except.ok _ => Decidable.isFalse (by simp)

/-- A concrete student (already enrolled in two courses) used to
evaluate the claim theorems on explicit inputs. -/
def sampleStudent : Student :=
  { name := "Ольга"
    surname := "Алёхина"
    gender := "Ж"
    finished_courses := []
    courses_in_progress := ["Python", "Java"]
    grades := [] }

/-- `sampleStudent` after one homework grade 7 for the Python course. -/
def sampleStudentRated : Student :=
  { sampleStudent with grades := [("Python", [7])] }

/-- A concrete lecturer attached to two courses. -/
def sampleLecturer : Lecturer :=
  { name := "Иван"
    surname := "Иванов"
    courses_attached := ["Python", "C++"]
    grades := [] }

/-- `sampleLecturer` after one lecture grade 8 for the Python course. -/
def sampleLecturerRated : Lecturer :=
  { sampleLecturer with grades := [("Python", [8])] }

/-- A lecturer whose grade dict coincides with `sampleStudentRated`. -/
def sampleLecturerPy : Lecturer :=
  { name := "Вера"
    surname := "Васильева"
    courses_attached := ["Python"]
    grades := [("Python", [7])] }

/-- A concrete reviewer attached to the Python course. -/
def sampleReviewer : Reviewer :=
  { name := "Пётр"
    surname := "Петров"
    courses_attached := ["Python"] }

/-- The student produced by `Student.__init__` on the arguments
`"Иван"`, `"Иванов"`, `"М"`. -/
def newStudent : Student :=
  { name := "Иван"
    surname := "Иванов"
    gender := "М"
    finished_courses := []
    courses_in_progress := []
    grades := [] }

/-- The lecturer produced by `Lecturer.__init__` on the arguments
`"Анна"`, `"Петрова"`. -/
def newLecturer : Lecturer :=
  { name := "Анна"
    surname := "Петрова"
    courses_attached := []
    grades := [] }

/-- Claim C1: whenever any precondition of `rate_lecture` or `rate_hw`
fails (wrong target type, course missing from either list, or grade out
of `[0, 10]` — i.e. the respective guard is false), the operation returns
the error sentinel and leaves the caller and the target (hence the
target's grade dict and every other field) unchanged. -/
theorem claim_C1 (s : Student) (t : Obj) (c : String) (g : Int)
    (r : Reviewer) (t2 : Obj) (c2 : String) (g2 : Int)
    (h1 : lectureOk s t c g = false) (h2 : hwOk r t2 c2 g2 = false) :
    Student.rate_lecture s t c g = (s, t, some errWord) ∧
    Reviewer.rate_hw r t2 c2 g2 = (r, t2, some errWord) := by
  constructor
  · cases t with
    | lecturer l =>
      simp only [lectureOk] at h1
      simp only [Student.rate_lecture]
      split
      · rename_i hcond
        rw [h1] at hcond
        exact Bool.noConfusion hcond
      · rfl
    | student x => rfl
    | reviewer x => rfl
    | mentor x => rfl
  · cases t2 with
    | student x =>
      simp only [hwOk] at h2
      simp only [Reviewer.rate_hw]
      split
      · rename_i hcond
        rw [h2] at hcond
        exact Bool.noConfusion hcond
      · rfl
    | lecturer x => rfl
    | reviewer x => rfl
    | mentor x => rfl

theorem claim_C1_witness :
    Student.rate_lecture sampleStudent (Obj.reviewer sampleReviewer) ("Python") 5 =
      (sampleStudent, Obj.reviewer sampleReviewer, some errWord) ∧
    Reviewer.rate_hw sampleReviewer (Obj.student sampleStudent) ("Python") 11 =
      (sampleReviewer, Obj.student sampleStudent, some errWord) :=
  claim_C1 sampleStudent (Obj.reviewer sampleReviewer) ("Python") 5
    sampleReviewer (Obj.student sampleStudent) ("Python") 11 (by decide) (by decide)

/-- Claim C2: when all preconditions of `rate_hw` hold, the call
succeeds (returns `none`, i.e. Python `None`) and the student's entry
for the course becomes the previous list with the grade appended (the
previous list being `[]` when the course had no entry), so its length
grows by exactly one. -/
theorem claim_C2 (r : Reviewer) (s : Student) (c : String) (g : Int)
    (h0 : 0 ≤ g) (h1 : g ≤ 10)
    (hr : r.courses_attached.contains c = true)
    (hs : s.courses_in_progress.contains c = true) :
    ∃ s', Reviewer.rate_hw r (Obj.student s) c g = (r, Obj.student s', none) ∧
      dictGet s'.grades c = some (dictGetD s.grades c ++ [g]) ∧
      (dictGetD s'.grades c).length = (dictGetD s.grades c).length + 1 := by
  have hc : (r.courses_attached.contains c && s.courses_in_progress.contains c &&
      decide (0 ≤ g) && decide (g ≤ 10)) = true := by
    rw [hr, hs]
    simp [h0, h1]
  refine ⟨{ s with grades := dictAppend s.grades c g }, ?_, ?_, ?_⟩
  · simp only [Reviewer.rate_hw]
    rw [if_pos hc]
  · exact dictGet_dictAppend_self s.grades c g
  · show (dictGetD (dictAppend s.grades c g) c).length = _
    rw [dictGetD_dictAppend_self]
    simp

theorem claim_C2_witness :
    ∃ s', Reviewer.rate_hw sampleReviewer (Obj.student sampleStudent) ("Python") 7 =
        (sampleReviewer, Obj.student s', none) ∧
      dictGet s'.grades ("Python") = some (dictGetD sampleStudent.grades ("Python") ++ [7]) ∧
      (dictGetD s'.grades ("Python")).length =
        (dictGetD sampleStudent.grades ("Python")).length + 1 :=
  claim_C2 sampleReviewer sampleStudent ("Python") 7
    (by decide) (by decide) (by decide) (by decide)

/-- Claim C3 (counterexample): the one-entry mapping recording the single
valid grade 0 for Python is neither empty nor all-empty, yet `avg_grade`
returns 0 on it — so the claimed equivalence fails in the right-to-left
reading of its "only if" direction. -/
theorem claim_C3_counterexample :
    avg_grade [("Python", [0])] = 0 ∧
    ¬(([("Python", [0])] : GradeDict) = [] ∨
      ∀ p ∈ ([("Python", [0])] : GradeDict), p.2 = ([] : List Int)) := by
  constructor
  · simp [avg_grade]
  · intro h
    rcases h with h | h
    · cases h
    · have h0 := h ("Python", [0]) (List.mem_singleton.mpr rfl)
      cases h0

/-- Claim C3 (amended): `avg_grade M` is 0 whenever `M` is empty or all
its grade lists are empty, and in general `avg_grade M = 0` exactly when
the concatenation of all its grade lists sums to zero — which also
happens for nonempty mappings whose recorded grades are all 0. -/
theorem claim_C3 (M : GradeDict) :
    ((M = [] ∨ ∀ p ∈ M, p.2 = ([] : List Int)) → avg_grade M = 0) ∧
    (avg_grade M = 0 ↔ (flatGrades M).sum = 0) := by
  have hmean := avg_grade_eq_meanOfList M
  constructor
  · intro h
    have hf : flatGrades M = [] := by
      unfold flatGrades
      rcases h with rfl | h
      · rfl
      · rw [List.flatten_eq_nil_iff]
        intro l hl
        rcases List.mem_map.mp hl with ⟨p, hp, rfl⟩
        exact h p hp
    rw [hmean, hf]
    rfl
  · rw [hmean]
    unfold meanOfList
    by_cases hf : flatGrades M = []
    · simp [hf]
    · have hne : (flatGrades M).isEmpty = false := by
        simp [List.isEmpty_iff, hf]
      rw [hne]
      simp only [Bool.false_eq_true, if_false]
      rw [div_eq_zero_iff]
      constructor
      · rintro (h | h)
        · exact_mod_cast h
        · exfalso
          have : (flatGrades M).length = 0 := by exact_mod_cast h
          exact hf (List.eq_nil_of_length_eq_zero this)
      · intro h
        left
        exact_mod_cast h

theorem claim_C3_witness : avg_grade [] = 0 :=
  (claim_C3 []).1 (Or.inl rfl)

/-- Claim C4: when the mapping records at least one grade, `avg_grade`
returns the sum of the concatenation of all its grade lists divided by
its length (the arithmetic mean); otherwise it returns 0. -/
theorem claim_C4 (M : GradeDict) :
    (flatGrades M ≠ [] →
      avg_grade M = ((flatGrades M).sum : ℚ) / ((flatGrades M).length : ℚ)) ∧
    (flatGrades M = [] → avg_grade M = 0) := by
  have hmean := avg_grade_eq_meanOfList M
  constructor
  · intro h
    rw [hmean]
    unfold meanOfList
    have hne : (flatGrades M).isEmpty = false := by
      simp [List.isEmpty_iff, h]
    rw [hne]
    simp
  · intro h
    rw [hmean, h]
    rfl

theorem claim_C4_witness :
    avg_grade [("Python", [7]), ("Git", [9])] =
      ((flatGrades [("Python", [7]), ("Git", [9])]).sum : ℚ) /
        ((flatGrades [("Python", [7]), ("Git", [9])]).length : ℚ) :=
  (claim_C4 [("Python", [7]), ("Git", [9])]).1 (by decide)

/-- Claim C5: for students `A`, `B`, the operator `A > B` returns true
exactly when `avg_grade` of `A`'s grades strictly exceeds `B`'s, `B < A`
returns true under the same condition, and `A == B` returns true exactly
on equal averages; the same equivalences hold for lecturers over their
lecture-grade dicts. -/
theorem claim_C5 (A B : Student) (L1 L2 : Lecturer) :
    (Student.gtOp A (Obj.student B) = some true ↔
      avg_grade B.grades < avg_grade A.grades) ∧
    (Student.ltOp B (Obj.student A) = some true ↔
      avg_grade B.grades < avg_grade A.grades) ∧
    (Student.eqOp A (Obj.student B) = some true ↔
      avg_grade A.grades = avg_grade B.grades) ∧
    (Lecturer.gtOp L1 (Obj.lecturer L2) = some true ↔
      avg_grade L2.grades < avg_grade L1.grades) ∧
    (Lecturer.ltOp L2 (Obj.lecturer L1) = some true ↔
      avg_grade L2.grades < avg_grade L1.grades) ∧
    (Lecturer.eqOp L1 (Obj.lecturer L2) = some true ↔
      avg_grade L1.grades = avg_grade L2.grades) := by
  simp [Student.gtOp, Student.ltOp, Student.eqOp,
    Lecturer.gtOp, Lecturer.ltOp, Lecturer.eqOp]

/-- Claim C6: in every state reachable from construction by rating
calls (with arbitrary external course-list edits in between), all stored
grades lie in `[0, 10]`; and across any single `rate_hw` or
`rate_lecture` call each per-course grade list of the target only grows
by appending (the old list is a prefix of the new one). -/
theorem claim_C6 (s : Student) (hs : StudentReach s)
    (l : Lecturer) (hl : LecturerReach l)
    (r : Reviewer) (st st' : Student) (c : String) (g : Int) (res : Option String)
    (hstep : Reviewer.rate_hw r (Obj.student st) c g = (r, Obj.student st', res))
    (stu : Student) (lc lc' : Lecturer) (c2 : String) (g2 : Int) (res2 : Option String)
    (hstep2 : Student.rate_lecture stu (Obj.lecturer lc) c2 g2 = (stu, Obj.lecturer lc', res2)) :
    gradesInRange s.grades ∧ gradesInRange l.grades ∧
    (∀ k, dictGetD st.grades k <+: dictGetD st'.grades k) ∧
    (∀ k, dictGetD lc.grades k <+: dictGetD lc'.grades k) :=
  ⟨studentReach_gradesInRange s hs, lecturerReach_gradesInRange l hl,
    rate_hw_prefix r st c g st' res hstep,
    rate_lecture_prefix stu lc c2 g2 lc' res2 hstep2⟩

theorem claim_C6_witness :
    gradesInRange newStudent.grades ∧ gradesInRange newLecturer.grades ∧
    (∀ k, dictGetD sampleStudent.grades k <+: dictGetD sampleStudentRated.grades k) ∧
    (∀ k, dictGetD sampleLecturer.grades k <+: dictGetD sampleLecturerRated.grades k) :=
  claim_C6 newStudent
    (StudentReach.init (PyVal.str ("Иван")) (PyVal.str ("Иванов")) (PyVal.str ("М"))
      newStudent (by decide))
    newLecturer
    (LecturerReach.init (PyVal.str ("Анна")) (PyVal.str ("Петрова")) newLecturer (by decide))
    sampleReviewer sampleStudent sampleStudentRated ("Python") 7 none (by decide)
    sampleStudent sampleLecturer sampleLecturerRated ("Python") 8 none (by decide)

/-- Claim C7: every comparison method of `Student` (resp. `Lecturer`)
returns the unsupported-operation signal (`NotImplemented`, modelled as
`none`) — not a boolean and not a crash — whenever the other operand is
not a `Student` (resp. not a `Lecturer`). -/
theorem claim_C7 (s : Student) (o : Obj) (h : o.isStudent = false)
    (l : Lecturer) (o2 : Obj) (h2 : o2.isLecturer = false) :
    Student.eqOp s o = none ∧ Student.neOp s o = none ∧ Student.ltOp s o = none ∧
    Student.leOp s o = none ∧ Student.gtOp s o = none ∧ Student.geOp s o = none ∧
    Lecturer.eqOp l o2 = none ∧ Lecturer.neOp l o2 = none ∧ Lecturer.ltOp l o2 = none ∧
    Lecturer.leOp l o2 = none ∧ Lecturer.gtOp l o2 = none ∧ Lecturer.geOp l o2 = none := by
  cases o <;> cases o2 <;>
    simp_all [Obj.isStudent, Obj.isLecturer, Student.eqOp, Student.neOp, Student.ltOp,
      Student.leOp, Student.gtOp, Student.geOp, Lecturer.eqOp, Lecturer.neOp,
      Lecturer.ltOp, Lecturer.leOp, Lecturer.gtOp, Lecturer.geOp]

theorem claim_C7_witness :
    Student.eqOp sampleStudent (Obj.lecturer sampleLecturer) = none :=
  (claim_C7 sampleStudent (Obj.lecturer sampleLecturer) (by decide)
    sampleLecturer (Obj.student sampleStudent) (by decide)).1

/-- Claim C8: `Student.__init__` raises the type error when any of name,
surname, gender is not textual (checked in that order), raises the value
error when the trimmed-and-uppercased gender is not one of the two
accepted codes, and on success stores one of the two codes as gender and
the trimmed, title-cased name and surname; no student value exists on
any failure (the `Except` is an error). -/
theorem claim_C8 (n sn g : String) (snv gv : PyVal) :
    Student.init PyVal.nonStr snv gv = Except.error InitError.typeError ∧
    Student.init (PyVal.str n) PyVal.nonStr gv = Except.error InitError.typeError ∧
    Student.init (PyVal.str n) (PyVal.str sn) PyVal.nonStr =
      Except.error InitError.typeError ∧
    (genderCodes.contains (pyUpper (pyStrip g)) = false →
      Student.init (PyVal.str n) (PyVal.str sn) (PyVal.str g) =
        Except.error InitError.valueError) ∧
    (genderCodes.contains (pyUpper (pyStrip g)) = true →
      ∃ s, Student.init (PyVal.str n) (PyVal.str sn) (PyVal.str g) = Except.ok s ∧
        genderCodes.contains s.gender = true ∧
        s.gender = pyUpper (pyStrip g) ∧
        s.name = pyTitle (pyStrip n) ∧ s.surname = pyTitle (pyStrip sn)) := by
  refine ⟨rfl, rfl, rfl, ?_, ?_⟩
  · intro h
    have hne : ¬ genderCodes.contains (pyUpper (pyStrip g)) = true := by
      rw [h]
      simp
    simp only [Student.init]
    rw [if_neg hne]
  · intro h
    refine ⟨mkStudent n sn g, ?_, h, rfl, rfl, rfl⟩
    simp only [Student.init]
    rw [if_pos h]

theorem claim_C8_witness :
    ∃ s, Student.init (PyVal.str (" оля ")) (PyVal.str ("алёхина")) (PyVal.str (" ж ")) =
        Except.ok s ∧
      genderCodes.contains s.gender = true ∧
      s.gender = pyUpper (pyStrip (" ж ")) ∧
      s.name = pyTitle (pyStrip (" оля ")) ∧
      s.surname = pyTitle (pyStrip ("алёхина")) :=
  (claim_C8 (" оля ") ("алёхина") (" ж ") PyVal.nonStr PyVal.nonStr).2.2.2.2 (by decide)

/-- Claim C9: a successful `rate_hw` (resp. `rate_lecture`) call leaves
the caller unchanged and changes at most the entry under the rated
course in the target's grade dict: every other course entry and every
other field of the target keeps its value. -/
theorem claim_C9 (r : Reviewer) (s : Student) (c : String) (g : Int)
    (h : (Reviewer.rate_hw r (Obj.student s) c g).2.2 = none)
    (stu : Student) (l : Lecturer) (c2 : String) (g2 : Int)
    (h2 : (Student.rate_lecture stu (Obj.lecturer l) c2 g2).2.2 = none) :
    (Reviewer.rate_hw r (Obj.student s) c g).1 = r ∧
    (∃ s', (Reviewer.rate_hw r (Obj.student s) c g).2.1 = Obj.student s' ∧
      (∀ k, k ≠ c → dictGet s'.grades k = dictGet s.grades k) ∧
      s'.name = s.name ∧ s'.surname = s.surname ∧ s'.gender = s.gender ∧
      s'.finished_courses = s.finished_courses ∧
      s'.courses_in_progress = s.courses_in_progress) ∧
    (Student.rate_lecture stu (Obj.lecturer l) c2 g2).1 = stu ∧
    (∃ l', (Student.rate_lecture stu (Obj.lecturer l) c2 g2).2.1 = Obj.lecturer l' ∧
      (∀ k, k ≠ c2 → dictGet l'.grades k = dictGet l.grades k) ∧
      l'.name = l.name ∧ l'.surname = l.surname ∧
      l'.courses_attached = l.courses_attached) := by
  by_cases hc : (r.courses_attached.contains c && s.courses_in_progress.contains c &&
      decide (0 ≤ g) && decide (g ≤ 10)) = true
  · by_cases hc2 : (stu.courses_in_progress.contains c2 && l.courses_attached.contains c2 &&
        decide (0 ≤ g2) && decide (g2 ≤ 10)) = true
    · refine ⟨?_,
        ⟨{ s with grades := dictAppend s.grades c g }, ?_, ?_, rfl, rfl, rfl, rfl, rfl⟩,
        ?_,
        ⟨{ l with grades := dictAppend l.grades c2 g2 }, ?_, ?_, rfl, rfl, rfl⟩⟩
      · simp only [Reviewer.rate_hw]
        rw [if_pos hc]
      · simp only [Reviewer.rate_hw]
        rw [if_pos hc]
      · intro k hk
        exact dictGet_dictAppend_ne s.grades c g k hk
      · simp only [Student.rate_lecture]
        rw [if_pos hc2]
      · simp only [Student.rate_lecture]
        rw [if_pos hc2]
      · intro k hk
        exact dictGet_dictAppend_ne l.grades c2 g2 k hk
    · exfalso
      simp only [Student.rate_lecture] at h2
      rw [if_neg hc2] at h2
      exact Option.noConfusion h2
  · exfalso
    simp only [Reviewer.rate_hw] at h
    rw [if_neg hc] at h
    exact Option.noConfusion h

theorem claim_C9_witness :
    ∃ s', (Reviewer.rate_hw sampleReviewer (Obj.student sampleStudent) ("Python") 7).2.1 =
        Obj.student s' ∧
      (∀ k, k ≠ ("Python" : String) →
        dictGet s'.grades k = dictGet sampleStudent.grades k) ∧
      s'.name = sampleStudent.name ∧ s'.surname = sampleStudent.surname ∧
      s'.gender = sampleStudent.gender ∧
      s'.finished_courses = sampleStudent.finished_courses ∧
      s'.courses_in_progress = sampleStudent.courses_in_progress :=
  (claim_C9 sampleReviewer sampleStudent ("Python") 7 (by decide)
    sampleStudent sampleLecturer ("Python") 8 (by decide)).2.1

/-- Claim C10: `avg_students_grade` and `avg_lecturers_grade` are
extensionally equal — on lists of students and lecturers carrying the
same grade dicts they agree for every course, and both return the mean
(0 when there are no grades) of all grades recorded under that course
across the list. -/
theorem claim_C10 (ss : List Student) (ls : List Lecturer) (c : String)
    (h : ss.map Student.grades = ls.map Lecturer.grades) :
    avg_students_grade ss c = avg_lecturers_grade ls c ∧
    avg_students_grade ss c = meanOfList (courseGrades (ss.map Student.grades) c) := by
  constructor
  · rw [avg_students_grade_eq, avg_lecturers_grade_eq, h]
  · exact avg_students_grade_eq ss c

theorem claim_C10_witness :
    avg_students_grade [sampleStudentRated] ("Python") =
      avg_lecturers_grade [sampleLecturerPy] ("Python") :=
  (claim_C10 [sampleStudentRated] [sampleLecturerPy] ("Python") (by decide)).1

end StudentsAndMentors
